import Mathlib

/-!
Shallow embedding of the interactive UI core of the Nordic minimalist fashion
landing site: the NavBar state machine (mega-menu hover controller, search-bar
positioner, exclusive cart/wishlist drawers) from `NavBar.tsx` and the
horizontally scrolling product carousel from `ProductShowcase.tsx`.

Pixel quantities are modelled as rationals (`ℚ`); machine floats only enter
through `Math.floor`, which is modelled with `Int.floor` (they agree on the
inputs considered here). Timers are modelled as an explicit millisecond
countdown driven by a `tickMs` step, reflecting the single-threaded
event-loop semantics of the host described in the specification.
-/

namespace NavBarModel

/-- `PrimaryNavItemId` from `NavBar.tsx`: the closed set of top-level
navigation entries. -/
inductive MenuId
  | men
  | women
  | explore
  | sustainability
  | help
  deriving DecidableEq, Repr

/-- The static `hasMegaMenu` flag of each entry of `NAV_ITEMS` in
`NavBar.tsx`. -/
def hasMegaMenu : MenuId → Bool
  | .men => true
  | .women => true
  | .explore => true
  | .sustainability => false
  | .help => true

/-- `searchBarStyle` inline-CSS payload computed by `handleSearchToggle`
(`left`/`top`/`width`, the constant `zIndex` is omitted). -/
structure SearchBarStyle where
  left : ℚ
  top : ℚ
  width : ℚ
  deriving DecidableEq, Repr

/-- The mutable state of the `NavBar` component relevant to the mega menu and
the search bar: `activeDesktopMenu`, the pending close-timeout (remaining
milliseconds until it fires, `none` when no timeout is scheduled),
`isSearchBarOpen` and `searchBarStyle`. -/
structure NavState where
  activeDesktopMenu : Option MenuId
  megaMenuCloseTimeout : Option ℕ
  isSearchBarOpen : Bool
  searchBarStyle : Option SearchBarStyle
  deriving DecidableEq, Repr

/-- `clearMegaMenuCloseTimeout` in `NavBar.tsx`: cancels the scheduled mega
menu close, leaving everything else untouched. -/
def clearMegaMenuCloseTimeout (s : NavState) : NavState :=
  { s with megaMenuCloseTimeout := none }

/-- `scheduleMegaMenuClose` in `NavBar.tsx`: clears any previous timeout and
arms a fresh 140 ms timeout whose callback sets `activeDesktopMenu` to null. -/
def scheduleMegaMenuClose (s : NavState) : NavState :=
  { s with megaMenuCloseTimeout := some 140 }

/-- One millisecond of event-loop time. When the armed timeout reaches zero
remaining milliseconds it fires: the callback passed to `window.setTimeout`
in `scheduleMegaMenuClose` runs, setting `activeDesktopMenu` to null and the
timeout ref to null. This models the host timer of the specification's
concurrency section; the callback body is taken from the source. -/
def tickMs (s : NavState) : NavState :=
  match s.megaMenuCloseTimeout with
  | none => s
  | some n =>
    if n ≤ 1 then
      { s with activeDesktopMenu := none, megaMenuCloseTimeout := none }
    else
      { s with megaMenuCloseTimeout := some (n - 1) }

/-- `handleDesktopItemHover` in `NavBar.tsx`: a non-null id cancels any close
timer and opens that menu immediately; null closes the menu immediately
(without touching the timer). -/
def handleDesktopItemHover (s : NavState) (id : Option MenuId) : NavState :=
  match id with
  | some i => { (clearMegaMenuCloseTimeout s) with activeDesktopMenu := some i }
  | none => { s with activeDesktopMenu := none }

/-- The `onMouseEnter` handler attached to each primary nav button in
`NavBar.tsx`: items with a mega menu hover-open their panel, items without
one close any open panel. -/
def navItemMouseEnter (s : NavState) (item : MenuId) : NavState :=
  if hasMegaMenu item then handleDesktopItemHover s (some item)
  else handleDesktopItemHover s none

/-- `currentMegaItem` in `NavBar.tsx`: the active menu entry provided it has a
mega menu (`NAV_ITEMS.find` with `i.hasMegaMenu`). -/
def currentMegaItem (s : NavState) : Option MenuId :=
  match s.activeDesktopMenu with
  | some i => if hasMegaMenu i then some i else none
  | none => none

/-- Render guard of the `SearchBar` element in `NavBar.tsx`:
`isSearchBarOpen && <SearchBar …/>`. -/
def rendersSearchBar (s : NavState) : Bool :=
  s.isSearchBarOpen

/-- Render guard of the `DesktopMegaMenu` element in `NavBar.tsx`:
`currentMegaItem && !isSearchBarOpen && <DesktopMegaMenu …/>`. -/
def rendersMegaMenu (s : NavState) : Bool :=
  (currentMegaItem s).isSome && !s.isSearchBarOpen

/-- A `DOMRect`-style bounding rectangle as returned by
`getBoundingClientRect`. -/
structure Rect where
  left : ℚ
  top : ℚ
  width : ℚ
  height : ℚ
  deriving DecidableEq, Repr

/-- `rect.bottom` of a DOM rectangle. -/
def Rect.bottom (r : Rect) : ℚ :=
  r.top + r.height

/-- The layout measurements `handleSearchToggle` reads: `window.innerWidth`
and the bounding rectangles of the search button, header and wrapper refs
(`none` when the ref is not attached to a mounted element). -/
structure Measurements where
  innerWidth : ℚ
  searchButtonRect : Option Rect
  headerRect : Option Rect
  wrapperRect : Option Rect

/-- The responsive search-box width from `handleSearchToggle`:
`Math.min(800, Math.max(320, Math.floor(window.innerWidth * 0.44)))`. -/
def computedSearchWidth (innerWidth : ℚ) : ℚ :=
  min 800 (max 320 ((⌊innerWidth * (44 / 100)⌋ : ℤ) : ℚ))

/-- The positioning computation of `handleSearchToggle` once all three
elements are measurable: centre the box under the search icon, clamp `left`
to a 12 px viewport padding, and place `top` just below the header (8 px gap)
relative to the wrapper. -/
def computeSearchBarStyle (innerWidth : ℚ) (btnRect hdrRect wrapRect : Rect) :
    SearchBarStyle :=
  let computedWidth := computedSearchWidth innerWidth
  let left0 := btnRect.left + btnRect.width / 2 - computedWidth / 2
  let left := max 12 (min left0 (innerWidth - computedWidth - 12))
  let top := max 0 (hdrRect.bottom - wrapRect.top + 8)
  ⟨left, top, computedWidth⟩

/-- `handleSearchToggle` in `NavBar.tsx`: always closes any open mega menu;
then either closes the search bar, or opens it — with a computed position
when the button, header and wrapper are all measurable, and with a null style
(default centered presentation) otherwise. -/
def handleSearchToggle (s : NavState) (m : Measurements) : NavState :=
  let s1 := { s with activeDesktopMenu := none }
  if s1.isSearchBarOpen then
    { s1 with isSearchBarOpen := false, searchBarStyle := none }
  else
    match m.searchButtonRect, m.headerRect, m.wrapperRect with
    | some btn, some hdr, some wrap =>
      { s1 with
        isSearchBarOpen := true
        searchBarStyle := some (computeSearchBarStyle m.innerWidth btn hdr wrap) }
    | _, _, _ =>
      { s1 with isSearchBarOpen := true, searchBarStyle := none }

/-- The cart/wishlist drawer flags of `NavBar.tsx`
(`isCartDrawerOpen`, `isWishlistDrawerOpen`). -/
structure DrawerState where
  isCartDrawerOpen : Bool
  isWishlistDrawerOpen : Bool
  deriving DecidableEq, Repr

/-- Initial drawer state: both `useState(false)`. -/
def initialDrawerState : DrawerState :=
  ⟨false, false⟩

/-- `openCartDrawer` in `NavBar.tsx`: opens the cart and closes the wishlist
drawer. -/
def openCartDrawer (_s : DrawerState) : DrawerState :=
  ⟨true, false⟩

/-- `closeCartDrawer` in `NavBar.tsx`: closes the cart, leaving the wishlist
flag untouched. -/
def closeCartDrawer (s : DrawerState) : DrawerState :=
  { s with isCartDrawerOpen := false }

/-- `openWishlistDrawer` in `NavBar.tsx`: opens the wishlist and closes the
cart drawer. -/
def openWishlistDrawer (_s : DrawerState) : DrawerState :=
  ⟨false, true⟩

/-- `closeWishlistDrawer` in `NavBar.tsx`: closes the wishlist, leaving the
cart flag untouched. -/
def closeWishlistDrawer (s : DrawerState) : DrawerState :=
  { s with isWishlistDrawerOpen := false }

/-- The four drawer operations as events. -/
inductive DrawerEvent
  | openCart
  | openWishlist
  | closeCart
  | closeWishlist
  deriving DecidableEq, Repr

/-- Dispatch one drawer event to its handler. -/
def drawerStep (s : DrawerState) : DrawerEvent → DrawerState
  | .openCart => openCartDrawer s
  | .openWishlist => openWishlistDrawer s
  | .closeCart => closeCartDrawer s
  | .closeWishlist => closeWishlistDrawer s

/-- Run a sequence of drawer events from a state. -/
def runDrawerEvents (s : DrawerState) (es : List DrawerEvent) : DrawerState :=
  es.foldl drawerStep s

/-- At most one of the two drawers is visible. -/
def atMostOneDrawerOpen (s : DrawerState) : Bool :=
  !(s.isCartDrawerOpen && s.isWishlistDrawerOpen)

end NavBarModel

namespace NavBarModel

theorem atMostOne_drawerStep (s : DrawerState) (e : DrawerEvent) :
    atMostOneDrawerOpen (drawerStep s e) = true := by
  cases e <;>
    simp [drawerStep, atMostOneDrawerOpen, openCartDrawer, openWishlistDrawer,
      closeCartDrawer, closeWishlistDrawer]

theorem atMostOne_runDrawerEvents (s : DrawerState)
    (hs : atMostOneDrawerOpen s = true) (es : List DrawerEvent) :
    atMostOneDrawerOpen (runDrawerEvents s es) = true := by
  induction es generalizing s with
  | nil => simpa [runDrawerEvents] using hs
  | cons e es ih =>
    have h := atMostOne_drawerStep s e
    simpa [runDrawerEvents, List.foldl_cons] using ih (drawerStep s e) h

/-- C1: starting from both drawers closed, after every sequence of
open/close cart/wishlist calls at most one drawer is visible (hence after
each individual call of the sequence, since every prefix is itself such a
sequence); opening either drawer forces the other closed, and closing
either drawer leaves the other's visibility unchanged. -/
theorem exclusive_drawer_invariant :
    (∀ es : List DrawerEvent,
        atMostOneDrawerOpen (runDrawerEvents initialDrawerState es) = true) ∧
    (∀ s : DrawerState,
        (openCartDrawer s).isWishlistDrawerOpen = false ∧
        (openWishlistDrawer s).isCartDrawerOpen = false) ∧
    (∀ s : DrawerState,
        (closeCartDrawer s).isWishlistDrawerOpen = s.isWishlistDrawerOpen ∧
        (closeWishlistDrawer s).isCartDrawerOpen = s.isCartDrawerOpen) := by
  refine ⟨fun es => atMostOne_runDrawerEvents initialDrawerState (by rfl) es, ?_, ?_⟩
  · intro s
    exact ⟨rfl, rfl⟩
  · intro s
    exact ⟨rfl, rfl⟩

end NavBarModel

namespace CarouselModel

/-- Scroll geometry of the carousel track element in `ProductShowcase.tsx`
(`scrollLeft`, `scrollWidth`, `clientWidth` of the node), plus the
`offsetWidth` of its first child (`none` when the track has no children,
i.e. no card is measurable). -/
structure TrackDom where
  scrollLeft : ℚ
  scrollWidth : ℚ
  clientWidth : ℚ
  firstChildOffsetWidth : Option ℚ
  deriving DecidableEq, Repr

/-- `maxScroll = scrollWidth - clientWidth` from `updateScrollState`. -/
def maxScroll (d : TrackDom) : ℚ :=
  d.scrollWidth - d.clientWidth

/-- The state written by `updateScrollState` (`canScrollPrev`,
`canScrollNext`, `scrollProgress` in percent). -/
structure ScrollUIState where
  canScrollPrev : Bool
  canScrollNext : Bool
  scrollProgress : ℚ
  deriving DecidableEq, Repr

/-- `updateScrollState` in `ProductShowcase.tsx`: `canScrollPrev = scrollLeft
> 0`, `canScrollNext = scrollLeft < maxScroll - 1`, and progress is 100 when
the content fits (`maxScroll <= 0`) and `scrollLeft / maxScroll * 100`
otherwise. -/
def updateScrollState (d : TrackDom) : ScrollUIState where
  canScrollPrev := decide (d.scrollLeft > 0)
  canScrollNext := decide (d.scrollLeft < maxScroll d - 1)
  scrollProgress :=
    if maxScroll d ≤ 0 then 100 else d.scrollLeft / maxScroll d * 100

/-- `GAP_PX` in `handleArrowClick` (the Tailwind `gap-5` spacing). -/
def GAP_PX : ℚ := 20

/-- The per-click step of `handleArrowClick`:
`(firstChild?.offsetWidth ?? node.clientWidth * 0.8) + (firstChild ? GAP_PX : 0)`. -/
def arrowStep (d : TrackDom) : ℚ :=
  match d.firstChildOffsetWidth with
  | some w => w + GAP_PX
  | none => d.clientWidth * (8 / 10)

/-- The browser scroll host applied to `node.scrollBy({left: delta})`:
the resulting `scrollLeft` is the requested offset clamped into
`[0, scrollWidth - clientWidth]`. This is the scroll-host contract of the
specification's external-interfaces section; the delta it is applied to is
taken from the source. -/
def scrollByResult (d : TrackDom) (delta : ℚ) : ℚ :=
  max 0 (min (d.scrollLeft + delta) (maxScroll d))

/-- `handleArrowClick` in `ProductShowcase.tsx`: scrolls the track by
`direction * step`; returns the settled `scrollLeft`. -/
def handleArrowClick (d : TrackDom) (direction : ℚ) : ℚ :=
  scrollByResult d (direction * arrowStep d)

end CarouselModel

namespace CarouselModel

/-- C3: with `maxScroll = contentExtent - viewportExtent > 0`, the progress
percentage computed by `updateScrollState` is non-decreasing in the scroll
offset over `[0, maxScroll]`, is 0 at offset 0 and 100 at offset
`maxScroll`. -/
theorem carousel_progress_monotone (sw cw : ℚ) (hpos : 0 < sw - cw) :
    (∀ o₁ o₂ : ℚ, 0 ≤ o₁ → o₁ ≤ o₂ → o₂ ≤ sw - cw →
        (updateScrollState ⟨o₁, sw, cw, none⟩).scrollProgress ≤
          (updateScrollState ⟨o₂, sw, cw, none⟩).scrollProgress) ∧
    (updateScrollState ⟨0, sw, cw, none⟩).scrollProgress = 0 ∧
    (updateScrollState ⟨sw - cw, sw, cw, none⟩).scrollProgress = 100 := by
  have hns : ¬ sw - cw ≤ 0 := not_le.mpr hpos
  refine ⟨?_, ?_, ?_⟩
  · intro o₁ o₂ _ h12 _
    simp only [updateScrollState, maxScroll, hns, if_false]
    have h : o₁ / (sw - cw) ≤ o₂ / (sw - cw) := (div_le_div_iff_of_pos_right hpos).mpr h12
    have h100 : (0 : ℚ) ≤ 100 := by norm_num
    exact mul_le_mul_of_nonneg_right h h100
  · simp [updateScrollState, maxScroll, hns]
  · simp only [updateScrollState, maxScroll, hns, if_false]
    field_simp

/-- Witness for `carousel_progress_monotone` at `scrollWidth = 300`,
`clientWidth = 100`. -/
theorem carousel_progress_monotone_witness :
    (0 : ℚ) < 300 - 100 ∧
    (updateScrollState ⟨300 - 100, 300, 100, none⟩).scrollProgress = 100 :=
  ⟨by norm_num, (carousel_progress_monotone 300 100 (by norm_num)).2.2⟩

end CarouselModel

namespace CarouselModel

/-- C8: when the content fits entirely in the viewport
(`scrollWidth - clientWidth <= 0`) and the offset is 0 — which covers the
zero-items track (`scrollWidth = 0`) and a single card narrower than the
viewport — `updateScrollState` reports `canScrollPrev = false`,
`canScrollNext = false` and `scrollProgress = 100`. -/
theorem carousel_degenerate_case (sw cw : ℚ) (fc : Option ℚ)
    (hfit : sw - cw ≤ 0) :
    (updateScrollState ⟨0, sw, cw, fc⟩).canScrollPrev = false ∧
    (updateScrollState ⟨0, sw, cw, fc⟩).canScrollNext = false ∧
    (updateScrollState ⟨0, sw, cw, fc⟩).scrollProgress = 100 := by
  refine ⟨by simp [updateScrollState], ?_, by simp [updateScrollState, maxScroll, hfit]⟩
  have hlt : ¬ (0 : ℚ) < sw - cw - 1 := by
    intro h
    nlinarith
  simp [updateScrollState, maxScroll, hlt]

/-- Witness for `carousel_degenerate_case`: the zero-items track
(`scrollWidth = 0`, `clientWidth = 500`). -/
theorem carousel_degenerate_case_witness :
    ((0 : ℚ) - 500 ≤ 0) ∧
    (updateScrollState ⟨0, 0, 500, none⟩).canScrollPrev = false ∧
    (updateScrollState ⟨0, 0, 500, none⟩).canScrollNext = false ∧
    (updateScrollState ⟨0, 0, 500, none⟩).scrollProgress = 100 := by
  refine ⟨by norm_num, carousel_degenerate_case 0 500 none (by norm_num)⟩

/-- C5: from any in-range offset, clicking the next arrow moves the settled
offset to exactly `offset + (cardWidth + 20)`, clamped at `maxScroll`, when
the first card is measurable; when no card is measurable the step is 80% of
the viewport width instead. -/
theorem arrow_step_size (d : TrackDom)
    (h0 : 0 ≤ d.scrollLeft) (hmax : d.scrollLeft ≤ maxScroll d)
    (hcw : 0 ≤ d.clientWidth) :
    (∀ w : ℚ, d.firstChildOffsetWidth = some w → 0 ≤ w →
        handleArrowClick d 1 = min (d.scrollLeft + (w + 20)) (maxScroll d)) ∧
    (d.firstChildOffsetWidth = none →
        arrowStep d = d.clientWidth * (8 / 10) ∧
        handleArrowClick d 1 =
          min (d.scrollLeft + d.clientWidth * (8 / 10)) (maxScroll d)) := by
  have hmx : 0 ≤ maxScroll d := le_trans h0 hmax
  constructor
  · intro w hw hwpos
    have harg : 0 ≤ d.scrollLeft + (w + 20) := by linarith
    have hmin : 0 ≤ min (d.scrollLeft + (w + 20)) (maxScroll d) :=
      le_min harg hmx
    simp [handleArrowClick, scrollByResult, arrowStep, hw, GAP_PX,
      max_eq_right hmin]
  · intro hw
    refine ⟨by simp [arrowStep, hw], ?_⟩
    have hstep : 0 ≤ d.clientWidth * (8 / 10) := by positivity
    have harg : 0 ≤ d.scrollLeft + d.clientWidth * (8 / 10) := by linarith
    have hmin : 0 ≤ min (d.scrollLeft + d.clientWidth * (8 / 10)) (maxScroll d) :=
      le_min harg hmx
    simp [handleArrowClick, scrollByResult, arrowStep, hw,
      max_eq_right hmin]

/-- Witness for `arrow_step_size`: offset 0, content 900 px, viewport 300 px,
first card 280 px wide: one next-click settles at `min (0 + 300) 600 = 300`. -/
theorem arrow_step_size_witness :
    ((0 : ℚ) ≤ 0) ∧ ((0 : ℚ) ≤ maxScroll ⟨0, 900, 300, some 280⟩) ∧
    handleArrowClick ⟨0, 900, 300, some 280⟩ 1 =
      min ((0 : ℚ) + (280 + 20)) (maxScroll ⟨0, 900, 300, some 280⟩) := by
  refine ⟨le_refl 0, by norm_num [maxScroll], ?_⟩
  exact (arrow_step_size ⟨0, 900, 300, some 280⟩ (le_refl 0)
    (by norm_num [maxScroll]) (by norm_num)).1 280 rfl (by norm_num)

end CarouselModel

namespace NavBarModel

theorem tickMs_timeout_none (s : NavState)
    (h : s.megaMenuCloseTimeout = none) : tickMs s = s := by
  simp [tickMs, h]

theorem iterate_tickMs_timeout_none (m : ℕ) (s : NavState)
    (h : s.megaMenuCloseTimeout = none) : tickMs^[m] s = s := by
  induction m with
  | zero => rfl
  | succ m ih => rw [Function.iterate_succ_apply, tickMs_timeout_none s h, ih]

theorem iterate_tickMs_countdown (j : ℕ) :
    ∀ (n : ℕ) (s : NavState), s.megaMenuCloseTimeout = some n → j < n →
      tickMs^[j] s = { s with megaMenuCloseTimeout := some (n - j) } := by
  induction j with
  | zero =>
    intro n s h _
    cases s
    simp_all
  | succ j ih =>
    intro n s h hj
    have hn1 : ¬ n ≤ 1 := by omega
    have hstep : tickMs s = { s with megaMenuCloseTimeout := some (n - 1) } := by
      simp [tickMs, h, hn1]
    have harith : n - 1 - j = n - (j + 1) := by omega
    rw [Function.iterate_succ_apply, hstep, ih (n - 1) _ rfl (by omega), harith]

theorem tickMs_fires (s : NavState) (h : s.megaMenuCloseTimeout = some 1) :
    tickMs s = { s with activeDesktopMenu := none, megaMenuCloseTimeout := none } := by
  simp [tickMs, h]

theorem iterate_tickMs_schedule_fires (s : NavState) :
    tickMs^[140] (scheduleMegaMenuClose s) =
      { s with activeDesktopMenu := none, megaMenuCloseTimeout := none } := by
  have h139 : tickMs^[139] (scheduleMegaMenuClose s) =
      { s with megaMenuCloseTimeout := some 1 } :=
    iterate_tickMs_countdown 139 140 (scheduleMegaMenuClose s) rfl (by omega)
  rw [show (140 : ℕ) = 139 + 1 from rfl, Function.iterate_succ_apply',
    h139, tickMs_fires _ rfl]

/-- C2: from `Open(a)`, a pointer-leave of the combined hover zone
(`scheduleMegaMenuClose`) followed, strictly less than 140 ms later, by a
pointer-enter (`clearMegaMenuCloseTimeout`) never reaches Idle — the menu is
still `a` at every intermediate millisecond and at every later millisecond
after the cancellation; a pointer-leave with no pointer-enter keeps the menu
open for the first 139 ms, transitions to Idle exactly when the 140 ms timer
fires, and makes no further transition afterwards. -/
theorem hover_menu_debounce (s : NavState) (a : MenuId)
    (hactive : s.activeDesktopMenu = some a) :
    (∀ k : ℕ, k < 140 →
      (∀ j : ℕ, j ≤ k →
        (tickMs^[j] (scheduleMegaMenuClose s)).activeDesktopMenu = some a) ∧
      (∀ m : ℕ,
        (tickMs^[m] (clearMegaMenuCloseTimeout
          (tickMs^[k] (scheduleMegaMenuClose s)))).activeDesktopMenu = some a)) ∧
    ((∀ j : ℕ, j < 140 →
        (tickMs^[j] (scheduleMegaMenuClose s)).activeDesktopMenu = some a) ∧
      (tickMs^[140] (scheduleMegaMenuClose s)).activeDesktopMenu = none ∧
      (∀ m : ℕ, 140 ≤ m →
        tickMs^[m] (scheduleMegaMenuClose s) =
          tickMs^[140] (scheduleMegaMenuClose s))) := by
  have hcount : ∀ j : ℕ, j < 140 →
      tickMs^[j] (scheduleMegaMenuClose s) =
        { s with megaMenuCloseTimeout := some (140 - j) } := fun j hj =>
    iterate_tickMs_countdown j 140 (scheduleMegaMenuClose s) rfl hj
  refine ⟨?_, ?_, ?_, ?_⟩
  · intro k hk
    constructor
    · intro j hj
      rw [hcount j (lt_of_le_of_lt hj hk)]
      exact hactive
    · intro m
      rw [hcount k hk]
      rw [iterate_tickMs_timeout_none m _ rfl]
      exact hactive
  · intro j hj
    rw [hcount j hj]
    exact hactive
  · rw [iterate_tickMs_schedule_fires]
  · intro m hm
    have hsplit : m = (m - 140) + 140 := by omega
    rw [hsplit, Function.iterate_add_apply, iterate_tickMs_schedule_fires,
      iterate_tickMs_timeout_none _ _ rfl]

/-- Witness for `hover_menu_debounce`: the state `Open(men)` with no pending
timer, closed search bar. -/
theorem hover_menu_debounce_witness :
    (NavState.activeDesktopMenu ⟨some .men, none, false, none⟩ = some .men) ∧
    (tickMs^[140]
      (scheduleMegaMenuClose ⟨some .men, none, false, none⟩)).activeDesktopMenu
        = none :=
  ⟨rfl, (hover_menu_debounce ⟨some .men, none, false, none⟩ .men rfl).2.2.1⟩

/-- C6: from `Open(a)`, hover-entering another item `b` that has a mega menu
switches the state directly to `Open(b)` within the same synchronous handler
call (zero delay), cancelling any pending close timer. -/
theorem hover_menu_immediate_switch (s : NavState) (a b : MenuId)
    (_hopen : s.activeDesktopMenu = some a) (hb : hasMegaMenu b = true) :
    navItemMouseEnter s b =
      { s with activeDesktopMenu := some b, megaMenuCloseTimeout := none } := by
  simp [navItemMouseEnter, hb, handleDesktopItemHover, clearMegaMenuCloseTimeout]

/-- Witness for `hover_menu_immediate_switch`: `Open(men)` with a pending
close timer, hover-entering `women`. -/
theorem hover_menu_immediate_switch_witness :
    (NavState.activeDesktopMenu ⟨some .men, some 70, false, none⟩ = some .men) ∧
    hasMegaMenu .women = true ∧
    navItemMouseEnter ⟨some .men, some 70, false, none⟩ .women =
      ⟨some .women, none, false, none⟩ :=
  ⟨rfl, rfl,
    hover_menu_immediate_switch ⟨some .men, some 70, false, none⟩ .men .women rfl rfl⟩

end NavBarModel

namespace NavBarModel

/-- C4 counterexample: at viewport width 1440 px the source computes
`Math.floor(1440 * 0.44) = 633`, so the overlay width is 633, not the
claimed `clamp(634, 320, 800) = 634`, and with trigger `{left: 700,
width: 20}` the returned left is `700 + 10 - 633/2 = 393.5`, not the claimed
393. -/
theorem search_scenario_1440_counterexample :
    ¬ ((computeSearchBarStyle 1440 ⟨700, 0, 20, 0⟩ ⟨0, 0, 0, 0⟩ ⟨0, 0, 0, 0⟩).width
          = 634 ∧
       (computeSearchBarStyle 1440 ⟨700, 0, 20, 0⟩ ⟨0, 0, 0, 0⟩ ⟨0, 0, 0, 0⟩).left
          = 393) := by
  intro h
  have hw := h.1
  rw [show computeSearchBarStyle 1440 ⟨700, 0, 20, 0⟩ ⟨0, 0, 0, 0⟩ ⟨0, 0, 0, 0⟩
        = ⟨787 / 2, 8, 633⟩ from by
    simp only [computeSearchBarStyle, computedSearchWidth, Rect.bottom]
    norm_num] at hw
  norm_num at hw

/-- C4 amended: at viewport width 1440 px and trigger `{left: 700, width: 20}`
the overlay width is `clamp(floor(1440 * 0.44), 320, 800) = clamp(633, 320,
800) = 633`, the naive centred left is `700 + 10 - 633/2 = 393.5`, which lies
inside the clamp bounds `[12, 1440 - 633 - 12 = 795]`, so the returned left
is 393.5. -/
theorem search_scenario_1440 :
    computedSearchWidth 1440 = 633 ∧
    (700 : ℚ) + 20 / 2 - 633 / 2 = 787 / 2 ∧
    (12 : ℚ) ≤ 787 / 2 ∧ (787 / 2 : ℚ) ≤ 1440 - 633 - 12 ∧
    computeSearchBarStyle 1440 ⟨700, 0, 20, 0⟩ ⟨0, 0, 0, 0⟩ ⟨0, 0, 0, 0⟩ =
      ⟨787 / 2, 8, 633⟩ := by
  refine ⟨?_, by norm_num, by norm_num, by norm_num, ?_⟩
  · simp only [computedSearchWidth]
    norm_num
  · simp only [computeSearchBarStyle, computedSearchWidth, Rect.bottom]
    norm_num

/-- C7 counterexample: at viewport width 340 px the overlay width is 320, the
clamp interval `[12, 340 - 320 - 12 = 8]` is empty, and for trigger
`{left: 190, width: 20}` the naive left 40 overflows the right padding
(`40 + 320 > 340 - 12`), yet the returned left is 12, not the claimed upper
bound `340 - 320 - 12 = 8`. -/
theorem overlay_clamping_counterexample :
    computedSearchWidth 340 = 320 ∧
    ((190 : ℚ) + 20 / 2 - computedSearchWidth 340 / 2) + computedSearchWidth 340
        > 340 - 12 ∧
    (computeSearchBarStyle 340 ⟨190, 0, 20, 0⟩ ⟨0, 0, 0, 0⟩ ⟨0, 0, 0, 0⟩).left
        ≠ 340 - computedSearchWidth 340 - 12 := by
  have hw : computedSearchWidth 340 = 320 := by
    simp only [computedSearchWidth]
    norm_num
  refine ⟨hw, by rw [hw]; norm_num, ?_⟩
  rw [hw]
  simp only [computeSearchBarStyle, computedSearchWidth, Rect.bottom]
  norm_num

/-- C7 amended: for every viewport width and trigger rectangle the overlay
width is `clamp(floor(innerWidth * 0.44), 320, 800)`; provided the clamp
interval is non-empty (`width + 24 ≤ innerWidth`), the returned left lies in
`[12, innerWidth - width - 12]`, and naive centring that would land below 12
or overflow `innerWidth - 12` is clamped to the corresponding bound. -/
theorem overlay_clamping (innerWidth : ℚ) (btn hdr wrap : Rect)
    (hfit : computedSearchWidth innerWidth + 24 ≤ innerWidth) :
    (computeSearchBarStyle innerWidth btn hdr wrap).width =
        min 800 (max 320 ((⌊innerWidth * (44 / 100)⌋ : ℤ) : ℚ)) ∧
    12 ≤ (computeSearchBarStyle innerWidth btn hdr wrap).left ∧
    (computeSearchBarStyle innerWidth btn hdr wrap).left ≤
        innerWidth - computedSearchWidth innerWidth - 12 ∧
    (btn.left + btn.width / 2 - computedSearchWidth innerWidth / 2 < 12 →
      (computeSearchBarStyle innerWidth btn hdr wrap).left = 12) ∧
    ((btn.left + btn.width / 2 - computedSearchWidth innerWidth / 2)
          + computedSearchWidth innerWidth > innerWidth - 12 →
      (computeSearchBarStyle innerWidth btn hdr wrap).left =
        innerWidth - computedSearchWidth innerWidth - 12) := by
  have hleft : (computeSearchBarStyle innerWidth btn hdr wrap).left =
      max 12 (min (btn.left + btn.width / 2 - computedSearchWidth innerWidth / 2)
        (innerWidth - computedSearchWidth innerWidth - 12)) := rfl
  have hub : (12 : ℚ) ≤ innerWidth - computedSearchWidth innerWidth - 12 := by
    linarith
  refine ⟨rfl, ?_, ?_, ?_, ?_⟩
  · rw [hleft]
    exact le_max_left _ _
  · rw [hleft]
    exact max_le hub (min_le_right _ _)
  · intro hnaive
    rw [hleft]
    have : min (btn.left + btn.width / 2 - computedSearchWidth innerWidth / 2)
        (innerWidth - computedSearchWidth innerWidth - 12) ≤ 12 :=
      le_of_lt (lt_of_le_of_lt (min_le_left _ _) hnaive)
    exact max_eq_left this
  · intro hnaive
    have hgt : innerWidth - computedSearchWidth innerWidth - 12 ≤
        btn.left + btn.width / 2 - computedSearchWidth innerWidth / 2 := by
      linarith
    rw [hleft, min_eq_right hgt]
    exact max_eq_right hub

/-- Witness for `overlay_clamping`: viewport 1440 px, trigger at the left
edge `{left: 0, width: 20}` — the naive left `10 - 633/2` is below 12, so
the returned left is the lower bound 12. -/
theorem overlay_clamping_witness :
    computedSearchWidth 1440 + 24 ≤ (1440 : ℚ) ∧
    (computeSearchBarStyle 1440 ⟨0, 0, 20, 0⟩ ⟨0, 0, 0, 0⟩ ⟨0, 0, 0, 0⟩).left
      = 12 := by
  have hw : computedSearchWidth 1440 = 633 := by
    simp only [computedSearchWidth]
    norm_num
  have hfit : computedSearchWidth 1440 + 24 ≤ (1440 : ℚ) := by
    rw [hw]
    norm_num
  refine ⟨hfit, ?_⟩
  exact (overlay_clamping 1440 ⟨0, 0, 20, 0⟩ ⟨0, 0, 0, 0⟩ ⟨0, 0, 0, 0⟩
    hfit).2.2.2.1 (by rw [hw]; norm_num)

end NavBarModel

namespace NavBarModel

/-- C9: when the search bar is toggled open while any of the required
measurements (search button, header, wrapper) is unavailable, the total
function `handleSearchToggle` still opens the search bar and falls back to
a null style — undefined left, top and width, i.e. the default centered
presentation — instead of failing. -/
theorem search_toggle_measurement_fallback (s : NavState) (m : Measurements)
    (hclosed : s.isSearchBarOpen = false)
    (hmiss : m.searchButtonRect = none ∨ m.headerRect = none ∨
      m.wrapperRect = none) :
    (handleSearchToggle s m).isSearchBarOpen = true ∧
    (handleSearchToggle s m).searchBarStyle = none := by
  obtain ⟨iw, btn, hdr, wrap⟩ := m
  cases btn <;> cases hdr <;> cases wrap <;>
    simp_all [handleSearchToggle]

/-- Witness for `search_toggle_measurement_fallback`: closed search bar,
no measurable elements at all. -/
theorem search_toggle_measurement_fallback_witness :
    NavState.isSearchBarOpen ⟨none, none, false, none⟩ = false ∧
    Measurements.searchButtonRect ⟨1440, none, none, none⟩ = none ∧
    (handleSearchToggle ⟨none, none, false, none⟩
        ⟨1440, none, none, none⟩).isSearchBarOpen = true ∧
    (handleSearchToggle ⟨none, none, false, none⟩
        ⟨1440, none, none, none⟩).searchBarStyle = none := by
  refine ⟨rfl, rfl, ?_⟩
  exact search_toggle_measurement_fallback ⟨none, none, false, none⟩
    ⟨1440, none, none, none⟩ rfl (Or.inl rfl)

/-- C10: in every state of the NavBar the mega-menu panel and the search bar
are never rendered together; the panel renders only when an active mega-menu
entry is set and the search bar is closed; every `handleSearchToggle` call
(in particular the one that opens the search bar) sets the active menu to
none; and a hover that sets an active menu while the search bar is open
still renders no panel. -/
theorem megamenu_search_mutual_exclusion :
    (∀ s : NavState, (rendersMegaMenu s && rendersSearchBar s) = false) ∧
    (∀ s : NavState, rendersMegaMenu s = true →
        (currentMegaItem s).isSome = true ∧ s.isSearchBarOpen = false) ∧
    (∀ (s : NavState) (m : Measurements),
        (handleSearchToggle s m).activeDesktopMenu = none) ∧
    (∀ (s : NavState) (b : MenuId), s.isSearchBarOpen = true →
        rendersMegaMenu (navItemMouseEnter s b) = false) := by
  refine ⟨?_, ?_, ?_, ?_⟩
  · intro s
    cases ho : s.isSearchBarOpen <;>
      simp [rendersMegaMenu, rendersSearchBar, ho]
  · intro s h
    simp only [rendersMegaMenu, Bool.and_eq_true, Bool.not_eq_true'] at h
    exact h
  · intro s m
    obtain ⟨iw, btn, hdr, wrap⟩ := m
    cases ho : s.isSearchBarOpen <;> cases btn <;> cases hdr <;> cases wrap <;>
      simp [handleSearchToggle, ho]
  · intro s b h
    cases hmb : hasMegaMenu b <;>
      simp [navItemMouseEnter, hmb, handleDesktopItemHover,
        clearMegaMenuCloseTimeout, rendersMegaMenu, h]

/-- Witness for `megamenu_search_mutual_exclusion`: with the search bar open,
hover-entering `men` renders no panel; and a state showing the `men` panel
has the search bar closed. -/
theorem megamenu_search_mutual_exclusion_witness :
    NavState.isSearchBarOpen ⟨none, none, true, none⟩ = true ∧
    rendersMegaMenu (navItemMouseEnter ⟨none, none, true, none⟩ .men) = false ∧
    rendersMegaMenu ⟨some .men, none, false, none⟩ = true ∧
    NavState.isSearchBarOpen ⟨some .men, none, false, none⟩ = false := by
  refine ⟨rfl, ?_, by decide, ?_⟩
  · exact megamenu_search_mutual_exclusion.2.2.2 ⟨none, none, true, none⟩ .men rfl
  · exact (megamenu_search_mutual_exclusion.2.1 ⟨some .men, none, false, none⟩
      (by decide)).2

end NavBarModel
